import Mathlib

/-!
Verification of the Tag Explainer core of the POS-basics notebook.

The repository is a notebook that calls an external NLP library to tag an
example sentence and to explain tag codes.  The only reimplementable core,
per the specification, is the Tag Explainer: a static, immutable mapping
from tag codes to descriptions, queried through a single accessor
`explain`.  The table contents and the tagged example document are
transcribed from the recorded cell outputs of
src/2 Pos and enr/00-POS-Basics.ipynb; the accessor contract (empty input
rejected as InvalidArgument, unknown codes mapped to a sentinel) follows
the specification, since the library implementing it is an external
dependency not contained in this repository.
-/

deriving instance DecidableEq for Except

/-- Category of a tag code: coarse part-of-speech or fine-grained tag. -/
inductive TagCategory where
  | POS
  | FineGrained
deriving DecidableEq, Repr

/-- One row of the static tag-description table. -/
structure TagEntry where
  code : String
  category : TagCategory
  description : String
deriving DecidableEq, Repr

/-- The apostrophe character (U+0027). -/
def apostrophe : Char := Char.ofNat 39

/-- Modelled from the spec: the fixed, immutable tag-description table of the
Tag Explainer (the library helper reframed as an explicit mapping owned by
the core).  Fine-grained rows are transcribed from the recorded outputs of
code cells 4 and 5 of the notebook; coarse POS rows are transcribed from
the POS table in the notebook markdown. -/
def tagTable : List TagEntry :=
  [ { code := "DT", category := .FineGrained, description := "determiner" },
    { code := "JJ", category := .FineGrained, description := "adjective" },
    { code := "NN", category := .FineGrained, description := "noun, singular or mass" },
    { code := "VBD", category := .FineGrained, description := "verb, past tense" },
    { code := "IN", category := .FineGrained,
      description := "conjunction, subordinating or preposition" },
    { code := "POS", category := .FineGrained, description := "possessive ending" },
    { code := ".", category := .FineGrained,
      description := "punctuation mark, sentence closer" },
    { code := "ADJ", category := .POS, description := "adjective" },
    { code := "ADP", category := .POS, description := "adposition" },
    { code := "ADV", category := .POS, description := "adverb" },
    { code := "AUX", category := .POS, description := "auxiliary" },
    { code := "CONJ", category := .POS, description := "conjunction" },
    { code := "CCONJ", category := .POS, description := "coordinating conjunction" },
    { code := "DET", category := .POS, description := "determiner" },
    { code := "INTJ", category := .POS, description := "interjection" },
    { code := "NOUN", category := .POS, description := "noun" },
    { code := "NUM", category := .POS, description := "numeral" },
    { code := "PART", category := .POS, description := "particle" },
    { code := "PRON", category := .POS, description := "pronoun" },
    { code := "PROPN", category := .POS, description := "proper noun" },
    { code := "PUNCT", category := .POS, description := "punctuation" },
    { code := "SCONJ", category := .POS, description := "subordinating conjunction" },
    { code := "SYM", category := .POS, description := "symbol" },
    { code := "VERB", category := .POS, description := "verb" },
    { code := "X", category := .POS, description := "other" },
    { code := "SPACE", category := .POS, description := "space" } ]

/-- Exact-match lookup of a code in a table, returning its description. -/
def lookupDescription (table : List TagEntry) (code : String) : Option String :=
  (table.find? (fun e => e.code == code)).map TagEntry.description

/-- The error condition signalled by `explain` on empty input. -/
inductive ExplainError where
  | invalidArgument
deriving DecidableEq, Repr

/-- Modelled from the spec: the accessor of the Tag Explainer over an
arbitrary table.  Empty input is rejected with InvalidArgument before any
lookup; a known code yields its description; an unknown code yields the
sentinel `none` rather than an error. -/
def explainWith (table : List TagEntry) (code : String) :
    Except ExplainError (Option String) :=
  if code = "" then .error .invalidArgument
  else .ok (lookupDescription table code)

/-- Modelled from the spec: `explain(code)`, the single query function of the
Tag Explainer, over the fixed built-in table. -/
def explain (code : String) : Except ExplainError (Option String) :=
  explainWith tagTable code

/-- The mutable-program-state view of the explainer: the table is the only
state an implementation could touch. -/
structure ExplainerState where
  table : List TagEntry
deriving DecidableEq, Repr

/-- Modelled from the spec: `explain` as a state-passing computation, making
explicit that a call reads the table and returns it unchanged. -/
def explainWithState (code : String) (s : ExplainerState) :
    Except ExplainError (Option String) × ExplainerState :=
  (explainWith s.table code, s)

/-- A token of the tagged document, as consumed from the external tagger. -/
structure Token where
  text : String
  coarsePos : String
  fineTag : String
deriving DecidableEq, Repr

/-- A tagged document, as consumed from the external tagger. -/
structure Doc where
  text : String
  tokens : List Token
deriving DecidableEq, Repr

/-- The example sentence passed to the tagger in code cell 2 of the
notebook. -/
def exampleText : String :=
  "The quick brown fox jumped over the lazy dog"
    ++ String.singleton apostrophe ++ "s back."

/-- The document text recorded in the output of code cell 3 of the notebook
(the stream printed by the notebook, without the trailing newline added by
print). -/
def printedDocText : String :=
  "The quick brown fox jumped over the lazy dog"
    ++ String.singleton apostrophe ++ "s back."

/-- Modelled from the spec: the external tagger is an opaque collaborator;
its behaviour on the example sentence is fixed by the recorded outputs of
code cells 3 and 5 of the notebook, transcribed here verbatim. -/
def nlpExampleDoc : Doc :=
  { text := printedDocText,
    tokens :=
      [ { text := "The", coarsePos := "DET", fineTag := "DT" },
        { text := "quick", coarsePos := "ADJ", fineTag := "JJ" },
        { text := "brown", coarsePos := "ADJ", fineTag := "JJ" },
        { text := "fox", coarsePos := "NOUN", fineTag := "NN" },
        { text := "jumped", coarsePos := "VERB", fineTag := "VBD" },
        { text := "over", coarsePos := "ADP", fineTag := "IN" },
        { text := "the", coarsePos := "DET", fineTag := "DT" },
        { text := "lazy", coarsePos := "ADJ", fineTag := "JJ" },
        { text := "dog", coarsePos := "NOUN", fineTag := "NN" },
        { text := String.singleton apostrophe ++ "s",
          coarsePos := "PART", fineTag := "POS" },
        { text := "back", coarsePos := "NOUN", fineTag := "NN" },
        { text := ".", coarsePos := "PUNCT", fineTag := "." } ] }

/-- C1 counterexample: the empty string is not a code of the fixed table,
yet explain on it does not return the unknown sentinel but signals
InvalidArgument. -/
theorem explain_unknown_empty_counterexample :
    ((tagTable.map TagEntry.code).contains "") = false ∧
    explain "" ≠ .ok none ∧
    explain "" = .error .invalidArgument := by
  decide

/-- C1 (amended): for every non-empty string c outside the fixed tag set,
explain(c) returns the unknown/no-description sentinel and never an
error. -/
theorem explain_unknown_is_sentinel (c : String) (hne : c ≠ "")
    (hout : ∀ e ∈ tagTable, e.code ≠ c) :
    explain c = .ok none := by
  unfold explain explainWith lookupDescription
  rw [if_neg hne]
  have hfind : tagTable.find? (fun e => e.code == c) = none := by
    rw [List.find?_eq_none]
    intro e he
    simpa using hout e he
  rw [hfind]
  rfl

/-- Witness for C1 at the concrete unknown code "ZZZ". -/
theorem explain_unknown_is_sentinel_witness :
    explain "ZZZ" = .ok none :=
  explain_unknown_is_sentinel "ZZZ" (by decide) (by decide)

/-- C2: explain("VBD") returns the description "verb, past tense". -/
theorem explain_VBD :
    explain "VBD" = .ok (some "verb, past tense") := by
  decide

/-- C3: explain("") fails with InvalidArgument, and does so whatever the
table holds: the input is rejected before any table lookup. -/
theorem explain_empty_invalid_argument :
    explain "" = .error .invalidArgument ∧
    ∀ table : List TagEntry, explainWith table "" = .error .invalidArgument :=
  ⟨rfl, fun _ => rfl⟩

/-- C4: every code of the fixed table is explained by its own non-empty
description, and a second call on the same code after a first one returns
the same result (determinism across calls of the stateful explainer). -/
theorem explain_known_nonempty_deterministic :
    (∀ e ∈ tagTable, explain e.code = .ok (some e.description) ∧
      e.description ≠ "") ∧
    (∀ (c : String) (s : ExplainerState),
      (explainWithState c ((explainWithState c s).2)).1
        = (explainWithState c s).1) := by
  constructor
  · decide
  · intro c s
    rfl

/-- Witness for C4 at the concrete table entry for "DT". -/
theorem explain_known_nonempty_deterministic_witness :
    explain "DT" = .ok (some "determiner") ∧ ("determiner" : String) ≠ "" :=
  explain_known_nonempty_deterministic.1
    { code := "DT", category := .FineGrained, description := "determiner" }
    (by decide)

/-- C5: the table assigns at most one description to each code, and lookup
is a case-sensitive exact match: the lower-case variant "dt" of the known
code "DT" is not treated as that code. -/
theorem tagTable_functional_and_case_sensitive :
    (∀ e₁ ∈ tagTable, ∀ e₂ ∈ tagTable,
      e₁.code = e₂.code → e₁.description = e₂.description) ∧
    explain "dt" = .ok none ∧
    explain "DT" = .ok (some "determiner") := by
  refine ⟨?_, by decide, by decide⟩
  decide

/-- Witness for C5 at the concrete table entry for "DT". -/
theorem tagTable_functional_and_case_sensitive_witness :
    ("determiner" : String) = "determiner" :=
  tagTable_functional_and_case_sensitive.1
    { code := "DT", category := .FineGrained, description := "determiner" }
    (by decide)
    { code := "DT", category := .FineGrained, description := "determiner" }
    (by decide)
    rfl

/-- C6: explain has no side effects: for every input code and every
program state, the stateful run returns the state (hence the table)
unchanged, and its answer is exactly the pure lookup over that table. -/
theorem explain_no_side_effects :
    ∀ (code : String) (s : ExplainerState),
      (explainWithState code s).2 = s ∧
      (explainWithState code s).1 = explainWith s.table code :=
  fun _ _ => ⟨rfl, rfl⟩

/-- C7: explain("DT") returns "determiner" and explain("JJ") returns
"adjective". -/
theorem explain_DT_JJ :
    explain "DT" = .ok (some "determiner") ∧
    explain "JJ" = .ok (some "adjective") := by
  decide

/-- C8: every token of the tagged example document has a fine-grained tag
code that explain resolves to a description: never the unknown sentinel
and never an error. -/
theorem doc_tags_all_explained :
    ∀ t ∈ nlpExampleDoc.tokens,
      explain t.fineTag ≠ .ok none ∧
      explain t.fineTag ≠ .error .invalidArgument := by
  decide

/-- Witness for C8 at the first token of the example document. -/
theorem doc_tags_all_explained_witness :
    explain "DT" ≠ .ok none ∧
    explain "DT" ≠ .error .invalidArgument :=
  doc_tags_all_explained
    { text := "The", coarsePos := "DET", fineTag := "DT" }
    (by decide)

/-- C9: tagging does not alter the input text: the text of the tagged
example document equals the original example sentence character for
character. -/
theorem doc_text_roundtrip :
    nlpExampleDoc.text = exampleText := by
  rfl

/-- C10: the token at index 4 of the tagged example document has text
"jumped", coarse POS "VERB" and fine-grained tag "VBD". -/
theorem doc_token4_jumped :
    nlpExampleDoc.tokens.get? 4
      = some { text := "jumped", coarsePos := "VERB", fineTag := "VBD" } := by
  rfl
